import Mathlib

/-!
Shallow embedding of the DreamLayer generation-request handlers
(`dream_layer_backend/txt2img_server.py` and
`dream_layer_backend/img2img_server.py`).

Filesystem effects (the ComfyUI input directory, the inference-trace CSV)
are modelled by explicit state passing; the external collaborators
(the ComfyUI engine, the run registry, GPU telemetry, image decoding)
are modelled by environment records supplying their observed outcomes,
so that the handlers become pure functions of (request, environment, state).
Machine floats for elapsed time are modelled by rationals.
-/

namespace DreamLayer

/-- One JSON HTTP response, flattened to the fields the handlers ever emit.
A field that is `none` is absent from the JSON body; `run_id = some none`
means the key is present with a JSON null value. -/
structure HttpResult where
  code : Nat
  status : Option String
  message : Option String
  error : Option String
  run_id : Option (Option String)
  interrupted : Option Bool
  generated_images : Option (List String)
  deriving DecidableEq

/-- The normalized engine response: the optional `error` field, the
`all_images` list and the `generated_images` descriptor list (reduced to
their filenames, the only part the handlers read). -/
structure ComfyResponse where
  error : Option String
  all_images : List String
  generated_images : List String
  deriving DecidableEq

/-- One row of the append-only inference-trace CSV
(`timestamp` is dropped: no claim mentions it). -/
structure TraceRow where
  total_time_s : ℚ
  images_generated : Nat
  time_per_image_s : Option ℚ
  gpu_name : String
  driver_version : String
  ckpt_name : String
  deriving DecidableEq

/-- Python `fname.endswith(sfx)`. -/
def endswith (fname sfx : String) : Bool :=
  sfx.toList.isSuffixOf fname.toList

/-- Function get_allowed_checkpoints (both servers): filter the directory listing of
`ComfyUI/models/checkpoints` down to `.safetensors` and `.ckpt` files.
The listing itself is an environment input; a raised `os.listdir` is modelled
by the caller passing the empty listing (the `except` branch returns `[]`). -/
def get_allowed_checkpoints (listing : List String) : List String :=
  listing.filter (fun fname => endswith fname ".safetensors" || endswith fname ".ckpt")

/-- Checkpoint validation block of `handle_txt2img`
(txt2img_server.py lines 130-136), with its mis-nested `else`:

  if not ckpt_name or ckpt_name not in ALLOWED_CKPTS:
      if ALLOWED_CKPTS:
          ckpt_name = ALLOWED_CKPTS[0]
      (no inner else: an empty list falls through with the name unchanged)
  else:
      return jsonify(error = no checkpoints available), 500

A falsy `ckpt_name` (Python `None` or `""`) is modelled by `""`. -/
def txt2img_resolve (ckpt_name : String) (allowed : List String) :
    Except String String :=
  if ckpt_name = "" ∨ ckpt_name ∉ allowed then
    match allowed with
    | chosen :: _ => Except.ok chosen
    | [] => Except.ok ckpt_name
  else
    Except.error "No checkpoints available on server"

/-- Checkpoint validation block of `handle_img2img`
(img2img_server.py lines 180-186), correctly nested:
valid name kept, fallback to the first allowed entry, `none` when the
allowed list is empty (the 500 return). -/
def img2img_resolve (ckpt_name : String) (allowed : List String) :
    Option String :=
  if ckpt_name = "" ∨ ckpt_name ∉ allowed then
    match allowed with
    | chosen :: _ => some chosen
    | [] => none
  else
    some ckpt_name

/-- Function log_inference_trace (txt2img_server.py lines 47-70): the row appended
to the trace CSV; `time_per_image` is `None` when no image was generated,
`total_time / images_generated` otherwise. -/
def log_inference_trace (total_time : ℚ) (images_generated : Nat)
    (gpu_name driver_version ckpt_name : String) : TraceRow :=
  let time_per_image : Option ℚ :=
    if images_generated = 0 then none else some (total_time / images_generated)
  ⟨total_time, images_generated, time_per_image, gpu_name, driver_version, ckpt_name⟩

/-- Inline computation of `handle_img2img` (img2img_server.py line 219):
`elapsed / images_generated if images_generated > 0 else None`. -/
def img2img_time_per_image (elapsed : ℚ) (images_generated : Nat) : Option ℚ :=
  if images_generated > 0 then some (elapsed / images_generated) else none

/-- Modelled from the spec: `transform_to_txt2img_workflow`
(module `txt2img_workflow`) is not under src/. Spec section 4.3: compilation is a
pure transformation whose failures are limited to malformed input
(e.g. a missing prompt), reported as `ValidationError`; the compiled graph
itself is not inspected by any claim, so it is reduced to `Unit`. -/
def transform_to_txt2img_workflow (prompt : Option String) : Except String Unit :=
  match prompt with
  | none => Except.error "ValidationError: missing prompt"
  | some _ => Except.ok ()

/-- Modelled from the spec: `transform_to_img2img_workflow`
(module `img2img_workflow`) is not under src/; same contract as the
txt2img compiler (spec section 4.3). -/
def transform_to_img2img_workflow (prompt : Option String) : Except String Unit :=
  match prompt with
  | none => Except.error "ValidationError: missing prompt"
  | some _ => Except.ok ()

/-- The fields of a txt2img request body the handler reads.
`none` models an absent key; the handler itself never validates these. -/
structure Txt2ImgData where
  prompt : Option String
  steps : Option Nat
  ckpt_name : Option String
  deriving DecidableEq

/-- Environment of one `handle_txt2img` call: the checkpoint directory
listing, the engine's response (`send_to_comfyui` is an external collaborator),
the measured elapsed time and the GPU telemetry outcome. -/
structure Txt2ImgEnv where
  checkpointListing : List String
  engine : ComfyResponse
  elapsed : ℚ
  gpu_name : String
  driver_version : String
  deriving DecidableEq

/-- Handler handle_txt2img (txt2img_server.py lines 73-208), as a function of the
parsed JSON body (`none` = falsy `data`: absent or empty), the environment and
the trace-CSV state. Note the order taken from the source: checkpoint
validation (lines 110-136) runs before workflow compilation (line 142); the
trace row (line 171) is appended before the engine-error check (line 180);
a compilation exception is caught by the top-level `except` as a generic 500. -/
def handle_txt2img (data : Option Txt2ImgData) (env : Txt2ImgEnv)
    (rows : List TraceRow) : HttpResult × List TraceRow :=
  match data with
  | none =>
    (⟨400, some "error", some "No data received", none, none, none, none⟩, rows)
  | some d =>
    match txt2img_resolve (d.ckpt_name.getD "unknown")
        (get_allowed_checkpoints env.checkpointListing) with
    | Except.error msg =>
      (⟨500, none, none, some msg, none, none, none⟩, rows)
    | Except.ok ckpt =>
      match transform_to_txt2img_workflow d.prompt with
      | Except.error e =>
        (⟨500, some "error", some e, none, none, none, none⟩, rows)
      | Except.ok _ =>
        let comfy := env.engine
        let images_generated := comfy.all_images.length
        let rows1 := rows ++
          [log_inference_trace env.elapsed images_generated
            env.gpu_name env.driver_version ckpt]
        match comfy.error with
        | some msg =>
          (⟨500, some "error", some msg, none, none, none, none⟩, rows1)
        | none =>
          (⟨200, some "success", some "Workflow sent to ComfyUI successfully",
             none, none, none, some comfy.all_images⟩, rows1)

/-- Handler handle_txt2img_interrupt (txt2img_server.py lines 210-215):
200 with `status: received` and the boolean result of `interrupt_workflow()`. -/
def handle_txt2img_interrupt (success : Bool) : HttpResult :=
  ⟨200, some "received", none, none, none, some success, none⟩

/-- Handler handle_img2img_interrupt (img2img_server.py lines 330-334):
200 with only `status: received` — no `interrupted` field. -/
def handle_img2img_interrupt : HttpResult :=
  ⟨200, some "received", none, none, none, none, none⟩

/-- Python `int(s)` on a string: optional surrounding whitespace, an optional
sign, then at least one decimal digit; anything else raises `ValueError`,
modelled as `none`. -/
def pyStrip (cs : List Char) : List Char :=
  ((cs.dropWhile (fun c => c = ' ' ∨ c = '\t' ∨ c = '\n' ∨ c = '\r')).reverse.dropWhile
    (fun c => c = ' ' ∨ c = '\t' ∨ c = '\n' ∨ c = '\r')).reverse

/-- See `pyStrip`: the integer-parsing part of Python `int(str)`. -/
def pyParseInt (s : String) : Option Int :=
  let cs := pyStrip s.toList
  let signAndDigits : Int × List Char :=
    match cs with
    | '-' :: rest => (-1, rest)
    | '+' :: rest => (1, rest)
    | _ => (1, cs)
  if signAndDigits.2 ≠ [] ∧ signAndDigits.2.all Char.isDigit then
    some (signAndDigits.1 *
      Int.ofNat (signAndDigits.2.foldl (fun acc c => acc * 10 + (c.toNat - 48)) 0))
  else
    none

/-- Lines 270-274 of txt2img_server.py: `request.form.get('unit_index', '0')`
followed by `int(...)` with `ValueError` replaced by `0`. -/
def parse_unit_index (form_value : Option String) : Int :=
  match pyParseInt (form_value.getD "0") with
  | some n => n
  | none => 0

/-- Outcome of `upload_controlnet_image_endpoint`: either a 400 error body or
the call into `upload_controlnet_image(file, unit_index)`. -/
inductive UploadOutcome where
  | err400 (msg : String)
  | uploaded (unit_index : Int)
  deriving DecidableEq

/-- Endpoint upload_controlnet_image_endpoint (txt2img_server.py lines 250-283), up to
the handoff to the shared upload function. -/
def upload_controlnet_image_endpoint (hasFile : Bool) (filename : String)
    (unit_index_form : Option String) : UploadOutcome :=
  if hasFile = false then UploadOutcome.err400 "No file provided"
  else if filename = "" then UploadOutcome.err400 "No file selected"
  else UploadOutcome.uploaded (parse_unit_index unit_index_form)

/-- The fields of an img2img request body the handler reads; `none` models an
absent key (the validation loop tests `field not in data`). -/
structure Img2ImgData where
  prompt : Option String
  input_image : Option String
  denoising_strength : Option ℚ
  ckpt_name : Option String
  deriving DecidableEq

/-- Validation loop of `handle_img2img` (img2img_server.py lines 89-96): the
first field of `['prompt', 'input_image', 'denoising_strength']` missing from
the body, if any. -/
def requiredMissing (d : Img2ImgData) : Option String :=
  if d.prompt = none then some "prompt"
  else if d.input_image = none then some "input_image"
  else if d.denoising_strength = none then some "denoising_strength"
  else none

/-- Outcome of the `requests.post` to the run registry: an HTTP status, or a
raised exception (connection refused, timeout). -/
inductive RegistryOutcome where
  | ok (status_code : Nat)
  | raises (msg : String)
  deriving DecidableEq

/-- Modelled from the spec: `create_run_config_from_generation_data`
(module `run_registry`) is not under src/. Spec section 3, RunRecord:
a provenance entry built from the original request, the generated image
filenames and a mode tag, carrying a run id; construction is local and total,
with the fresh id supplied by the environment. -/
structure RunConfig where
  run_id : String
  images : List String
  mode : String
  deriving DecidableEq

/-- Modelled from the spec: see `RunConfig`. -/
def create_run_config_from_generation_data (fresh_id : String)
    (images : List String) (mode : String) : RunConfig :=
  ⟨fresh_id, images, mode⟩

/-- Environment of one `handle_img2img` call. `inputDirOk` is the outcome of
`verify_input_directory()`, `decodeOk` the outcome of decoding+saving+verifying
the input image, `now` the `int(time.time())` used for the temp filename,
`removeOk` the outcome of the final `os.remove`. -/
structure Img2ImgEnv where
  inputDirOk : Bool
  decodeOk : Bool
  now : Nat
  checkpointListing : List String
  engine : ComfyResponse
  elapsed : ℚ
  gpu_name : String
  driver_version : String
  registry : RegistryOutcome
  freshRunId : String
  removeOk : Bool
  deriving DecidableEq

/-- Observable server-side state touched by `handle_img2img`: the files in
ComfyUI's input directory, the img2img trace-CSV rows, the warnings logged,
and the run ids that actually reached the registry. -/
structure ServerState where
  inputFiles : List String
  traceRows : List TraceRow
  warnings : List String
  registryPosts : List String
  deriving DecidableEq

/-- Registry step of `handle_img2img` (img2img_server.py lines 285-304): the
POST outcome only produces log lines and (on delivery) a registry entry; every
exception is caught. -/
def registryStep (r : RegistryOutcome) (rc : RunConfig) (s : ServerState) :
    ServerState :=
  match r with
  | RegistryOutcome.ok 200 =>
    { s with registryPosts := s.registryPosts ++ [rc.run_id] }
  | RegistryOutcome.ok _ =>
    { s with registryPosts := s.registryPosts ++ [rc.run_id],
             warnings := s.warnings ++ ["Failed to register run"] }
  | RegistryOutcome.raises msg =>
    { s with warnings := s.warnings ++ ["Error registering run: " ++ msg] }

/-- Cleanup step of `handle_img2img` (img2img_server.py lines 314-319):
best-effort `os.remove` of the temp file, failure only logged. -/
def cleanupStep (removeOk : Bool) (temp_filename : String) (s : ServerState) :
    ServerState :=
  if removeOk then
    { s with inputFiles := s.inputFiles.filter (fun f => f ≠ temp_filename) }
  else
    { s with warnings := s.warnings ++
        ["Failed to remove temporary file: " ++ temp_filename] }

/-- Dispatch-and-report tail of `handle_img2img`
(img2img_server.py lines 208-321): timing, trace row (appended before the
engine-error check at line 261), engine-error 500, run-registry step, success
response carrying `run_id` from the already-built run config, then best-effort
cleanup of the temp file — on the success path only. -/
def img2img_dispatch (env : Img2ImgEnv) (ckpt temp_filename : String)
    (s1 : ServerState) : HttpResult × ServerState :=
  let comfy := env.engine
  let images_generated := comfy.all_images.length
  let time_per_image := img2img_time_per_image env.elapsed images_generated
  let row : TraceRow :=
    ⟨env.elapsed, images_generated, time_per_image,
      env.gpu_name, env.driver_version, ckpt⟩
  let s2 : ServerState :=
    { s1 with traceRows := s1.traceRows ++ [row] }
  match comfy.error with
  | some msg =>
    (⟨500, some "error", some msg, none, none, none, none⟩, s2)
  | none =>
    let generated_images := comfy.generated_images
    let run_config :=
      create_run_config_from_generation_data env.freshRunId generated_images "img2img"
    let s3 := registryStep env.registry run_config s2
    let response : HttpResult :=
      ⟨200, some "success", some "Workflow sent to ComfyUI successfully",
        none, some (some run_config.run_id), none, some generated_images⟩
    let s4 := cleanupStep env.removeOk temp_filename s3
    (response, s4)

/-- Handler handle_img2img (img2img_server.py lines 70-328): directory check, field
validation, image ingestion (one temp file written to the engine input
directory), checkpoint resolution, compilation, then `img2img_dispatch`.
A `none` body makes the logging line raise, caught as a generic 500. -/
def handle_img2img (data : Option Img2ImgData) (env : Img2ImgEnv)
    (s : ServerState) : HttpResult × ServerState :=
  if env.inputDirOk then
    match data with
    | none =>
      (⟨500, some "error", some "request body is not a JSON object", none,
         none, none, none⟩, s)
    | some d =>
      match requiredMissing d with
      | some f =>
        (⟨400, some "error", some ("Missing required field: " ++ f), none,
           none, none, none⟩, s)
      | none =>
        if env.decodeOk then
          let temp_filename := "input_" ++ toString env.now ++ ".png"
          let s1 : ServerState :=
            { s with inputFiles := s.inputFiles ++ [temp_filename] }
          match img2img_resolve (d.ckpt_name.getD "unknown")
              (get_allowed_checkpoints env.checkpointListing) with
          | none =>
            (⟨500, none, none, some "No checkpoints available on server",
               none, none, none⟩, s1)
          | some ckpt =>
            match transform_to_img2img_workflow d.prompt with
            | Except.error e =>
              (⟨500, some "error", some e, none, none, none, none⟩, s1)
            | Except.ok _ =>
              img2img_dispatch env ckpt temp_filename s1
        else
          (⟨400, some "error", some "Invalid input image: could not decode",
             none, none, none, none⟩, s)
  else
    (⟨500, some "error", some "Input directory does not exist", none, none,
       none, none⟩, s)

/-- C1: a txt2img request whose `ckpt_name` ("model.safetensors") is a member
of the non-empty discoverable checkpoint set takes the mis-nested `else` branch
of the validation block and gets HTTP 500 "No checkpoints available on server",
with no compilation, no dispatch and no trace row — instead of proceeding with
the name unchanged as the claim states. -/
theorem C1_valid_checkpoint_rejected :
    handle_txt2img
      (some ⟨some "a red fox in a snowy forest", some 20, some "model.safetensors"⟩)
      ⟨["model.safetensors"], ⟨none, ["out1.png"], ["out1.png"]⟩, 2, "CPU", "N/A"⟩
      []
    = (⟨500, none, none, some "No checkpoints available on server",
         none, none, none⟩, []) := by
  decide

/-- C2: a txt2img request against an empty discoverable checkpoint set falls
through the validation block with the requested name unchanged, compiles,
dispatches and appends a trace row (here returning 200 with the engine's
response), instead of failing with the 500 "no checkpoints available" error the
claim requires. -/
theorem C2_empty_set_still_dispatches :
    handle_txt2img
      (some ⟨some "a red fox in a snowy forest", some 20, some "model.safetensors"⟩)
      ⟨[], ⟨none, [], []⟩, 2, "CPU", "N/A"⟩
      []
    = (⟨200, some "success", some "Workflow sent to ComfyUI successfully",
         none, none, none, some []⟩,
       [⟨2, 0, none, "CPU", "N/A", "model.safetensors"⟩]) := by
  decide

/-- C8 counterexample: the img2img interrupt handler's response body carries no
`interrupted` field at all (while returning 200 with `status: received`), so
the claim that every interrupt endpoint returns a boolean `interrupted` field
is false for the img2img endpoint. -/
theorem C8_img2img_interrupt_lacks_flag :
    handle_img2img_interrupt.interrupted = none
    ∧ handle_img2img_interrupt.code = 200
    ∧ handle_img2img_interrupt.status = some "received" := by
  decide

/-- C8 amended: the txt2img interrupt endpoint returns 200 with
`status: received` and the boolean `interrupted`; the img2img interrupt
endpoint returns 200 with `status: received` and no `interrupted` field. -/
theorem C8_interrupt_responses (b : Bool) :
    handle_txt2img_interrupt b
      = ⟨200, some "received", none, none, none, some b, none⟩
    ∧ handle_img2img_interrupt
      = ⟨200, some "received", none, none, none, none, none⟩ :=
  ⟨rfl, rfl⟩

/-- C9 counterexample: a non-empty txt2img body with `steps` (and `ckpt_name`)
missing is not rejected: the handler falls back to the first checkpoint,
compiles, dispatches and returns 200 with a trace row appended — not the
HTTP 400 naming the missing field that the claim requires. -/
theorem C9_missing_steps_not_rejected :
    handle_txt2img
      (some ⟨some "a red fox in a snowy forest", none, none⟩)
      ⟨["model.ckpt"], ⟨none, [], []⟩, 2, "CPU", "N/A"⟩
      []
    = (⟨200, some "success", some "Workflow sent to ComfyUI successfully",
         none, none, none, some []⟩,
       [⟨2, 0, none, "CPU", "N/A", "model.ckpt"⟩]) := by
  decide

/-- C9 amended: `handle_txt2img` performs no field validation at all — for any
non-empty body the response code is 200 or 500 (never a 400 naming a missing
field), and the only 400 it can produce is the empty-body "No data received"
response. -/
theorem C9_no_field_validation (d : Txt2ImgData) (env : Txt2ImgEnv)
    (rows : List TraceRow) :
    ((handle_txt2img (some d) env rows).1.code = 200
      ∨ (handle_txt2img (some d) env rows).1.code = 500)
    ∧ handle_txt2img none env rows
        = (⟨400, some "error", some "No data received", none, none, none, none⟩,
           rows) := by
  refine ⟨?_, rfl⟩
  rcases hres : txt2img_resolve (d.ckpt_name.getD "unknown")
      (get_allowed_checkpoints env.checkpointListing) with msg | ckpt
  · right
    simp [handle_txt2img, hres]
  · rcases hcomp : transform_to_txt2img_workflow d.prompt with e | u
    · right
      simp [handle_txt2img, hres, hcomp]
    · rcases herr : env.engine.error with _ | m
      · left
        simp [handle_txt2img, hres, hcomp, herr]
      · right
        simp [handle_txt2img, hres, hcomp, herr]

/-- C10: in `upload_controlnet_image_endpoint`, when a file with a non-empty
filename is present, a `unit_index` form value that is absent or not parseable
as an integer is silently replaced by `0` and the upload proceeds. -/
theorem C10_unit_index_fallback (filename : String) (v : Option String)
    (hfn : ¬ filename = "")
    (hbad : v = none ∨ ∃ sv, v = some sv ∧ pyParseInt sv = none) :
    upload_controlnet_image_endpoint true filename v
      = UploadOutcome.uploaded 0 := by
  have h0 : pyParseInt "0" = some 0 := by decide
  rcases hbad with h | ⟨sv, hv, hp⟩
  · subst h
    simp [upload_controlnet_image_endpoint, hfn, parse_unit_index, h0]
  · subst hv
    simp [upload_controlnet_image_endpoint, hfn, parse_unit_index, hp]

/-- C10 witness: a request with file "pose.png" and unit_index "abc"
(unparsable) proceeds with unit index 0. -/
theorem C10_unit_index_fallback_witness :
    upload_controlnet_image_endpoint true "pose.png" (some "abc")
      = UploadOutcome.uploaded 0 :=
  C10_unit_index_fallback "pose.png" (some "abc") (by decide)
    (Or.inr ⟨"abc", rfl, by decide⟩)

/-- C5: an img2img request missing one of the required fields `prompt`,
`input_image`, `denoising_strength` gets HTTP 400 whose message cites a field
that is indeed missing (the first in the validation order), and the server
state is unchanged: no trace row is appended and no file is created. -/
theorem C5_missing_field_400 (d : Img2ImgData) (env : Img2ImgEnv)
    (s : ServerState) (hdir : env.inputDirOk = true)
    (hmiss : d.prompt = none ∨ d.input_image = none
      ∨ d.denoising_strength = none) :
    ∃ f : String,
      ((f = "prompt" ∧ d.prompt = none)
        ∨ (f = "input_image" ∧ d.input_image = none)
        ∨ (f = "denoising_strength" ∧ d.denoising_strength = none))
      ∧ handle_img2img (some d) env s
          = (⟨400, some "error", some ("Missing required field: " ++ f),
               none, none, none, none⟩, s) := by
  rcases hp : d.prompt with _ | p
  · exact ⟨"prompt", Or.inl ⟨rfl, rfl⟩,
      by simp [handle_img2img, hdir, requiredMissing, hp]⟩
  · rcases hi : d.input_image with _ | i
    · exact ⟨"input_image", Or.inr (Or.inl ⟨rfl, rfl⟩),
        by simp [handle_img2img, hdir, requiredMissing, hp, hi]⟩
    · rcases hds : d.denoising_strength with _ | q
      · exact ⟨"denoising_strength", Or.inr (Or.inr ⟨rfl, rfl⟩),
          by simp [handle_img2img, hdir, requiredMissing, hp, hi, hds]⟩
      · exact absurd hmiss (by simp [hp, hi, hds])

/-- C5 witness: a concrete img2img body with `input_image` omitted is rejected
with 400 citing `input_image`, leaving the state untouched. -/
theorem C5_missing_field_400_witness :
    ∃ f : String,
      ((f = "prompt"
          ∧ (Img2ImgData.mk (some "an impressionist painting") none (some 1)
              none).prompt = none)
        ∨ (f = "input_image"
          ∧ (Img2ImgData.mk (some "an impressionist painting") none (some 1)
              none).input_image = none)
        ∨ (f = "denoising_strength"
          ∧ (Img2ImgData.mk (some "an impressionist painting") none (some 1)
              none).denoising_strength = none))
      ∧ handle_img2img
          (some ⟨some "an impressionist painting", none, some 1, none⟩)
          ⟨true, true, 100, ["model.safetensors"], ⟨none, [], []⟩, 2, "CPU",
            "N/A", RegistryOutcome.ok 200, "run-123", true⟩
          ⟨[], [], [], []⟩
          = (⟨400, some "error", some ("Missing required field: " ++ f),
               none, none, none, none⟩, ⟨[], [], [], []⟩) :=
  C5_missing_field_400
    ⟨some "an impressionist painting", none, some 1, none⟩
    ⟨true, true, 100, ["model.safetensors"], ⟨none, [], []⟩, 2, "CPU", "N/A",
      RegistryOutcome.ok 200, "run-123", true⟩
    ⟨[], [], [], []⟩ rfl (Or.inr (Or.inl rfl))

/-- C6: in both trace recorders the recorded `time_per_image` is null exactly
when `images_generated = 0`, equals elapsed divided by `images_generated`
otherwise, and the txt2img helper and the img2img inline computation agree
(the division is the guarded branch, never taken at zero). -/
theorem C6_time_per_image (t : ℚ) (n : Nat) (g dr ck : String) :
    ((log_inference_trace t n g dr ck).time_per_image_s = none ↔ n = 0)
    ∧ (n ≠ 0 →
        (log_inference_trace t n g dr ck).time_per_image_s = some (t / n))
    ∧ img2img_time_per_image t n
        = (log_inference_trace t n g dr ck).time_per_image_s := by
  rcases Nat.eq_zero_or_pos n with h | h
  · subst h
    refine ⟨by simp [log_inference_trace], by simp, ?_⟩
    simp [log_inference_trace, img2img_time_per_image]
  · have hne : n ≠ 0 := Nat.pos_iff_ne_zero.mp h
    refine ⟨by simp [log_inference_trace, hne], ?_, ?_⟩
    · intro _
      simp [log_inference_trace, hne]
    · simp [log_inference_trace, img2img_time_per_image, hne, h]

/-- C6 witness: two generated images in three seconds record 3/2 seconds per
image. -/
theorem C6_time_per_image_witness :
    (2 : Nat) ≠ 0
    ∧ (log_inference_trace 3 2 "CPU" "N/A" "model.ckpt").time_per_image_s
        = some (3 / 2) :=
  ⟨by decide, (C6_time_per_image 3 2 "CPU" "N/A" "model.ckpt").2.1 (by decide)⟩

/-- C7: in both handlers, when the engine's response carries an `error` field
(and, per the dispatcher contract modelled from the spec, an empty image
list), the request ends with HTTP 500, status "error" and a message equal to
the engine's error text, and a trace row with `images_generated = 0` and a
null seconds-per-image has still been appended before the error return. -/
theorem C7_engine_error_traced
    (d : Txt2ImgData) (env : Txt2ImgEnv) (rows : List TraceRow)
    (d2 : Img2ImgData) (env2 : Img2ImgEnv) (s : ServerState)
    (msg msg2 ck ck2 : String)
    (hres : txt2img_resolve (d.ckpt_name.getD "unknown")
      (get_allowed_checkpoints env.checkpointListing) = Except.ok ck)
    (hcomp : transform_to_txt2img_workflow d.prompt = Except.ok ())
    (herr : env.engine.error = some msg)
    (hempty : env.engine.all_images = [])
    (hdir : env2.inputDirOk = true)
    (hvalid : requiredMissing d2 = none)
    (hdec : env2.decodeOk = true)
    (hres2 : img2img_resolve (d2.ckpt_name.getD "unknown")
      (get_allowed_checkpoints env2.checkpointListing) = some ck2)
    (hcomp2 : transform_to_img2img_workflow d2.prompt = Except.ok ())
    (herr2 : env2.engine.error = some msg2)
    (hempty2 : env2.engine.all_images = []) :
    handle_txt2img (some d) env rows
      = (⟨500, some "error", some msg, none, none, none, none⟩,
         rows ++ [⟨env.elapsed, 0, none, env.gpu_name, env.driver_version, ck⟩])
    ∧ (handle_img2img (some d2) env2 s).1
        = ⟨500, some "error", some msg2, none, none, none, none⟩
    ∧ (handle_img2img (some d2) env2 s).2.traceRows
        = s.traceRows
            ++ [⟨env2.elapsed, 0, none, env2.gpu_name, env2.driver_version,
                  ck2⟩] := by
  refine ⟨?_, ?_, ?_⟩
  · simp [handle_txt2img, hres, hcomp, herr, hempty, log_inference_trace]
  · simp [handle_img2img, hdir, hvalid, hdec, hres2, hcomp2,
      img2img_dispatch, herr2, hempty2, img2img_time_per_image]
  · simp [handle_img2img, hdir, hvalid, hdec, hres2, hcomp2,
      img2img_dispatch, herr2, hempty2, img2img_time_per_image]

/-- C7 witness: both handlers at a concrete request against an engine that
answers with error "CUDA OOM" and no images. -/
theorem C7_engine_error_traced_witness :
    handle_txt2img
      (some ⟨some "a red fox in a snowy forest", some 20, some "model.ckpt"⟩)
      ⟨["other.ckpt"], ⟨some "CUDA OOM", [], []⟩, 2, "CPU", "N/A"⟩ []
      = (⟨500, some "error", some "CUDA OOM", none, none, none, none⟩,
         [] ++ [⟨2, 0, none, "CPU", "N/A", "other.ckpt"⟩])
    ∧ (handle_img2img
        (some ⟨some "an oil painting", some "imagebytes", some 1,
          some "model.safetensors"⟩)
        ⟨true, true, 100, ["model.safetensors"], ⟨some "CUDA OOM", [], []⟩,
          2, "CPU", "N/A", RegistryOutcome.ok 200, "run-123", true⟩
        ⟨[], [], [], []⟩).1
        = ⟨500, some "error", some "CUDA OOM", none, none, none, none⟩
    ∧ (handle_img2img
        (some ⟨some "an oil painting", some "imagebytes", some 1,
          some "model.safetensors"⟩)
        ⟨true, true, 100, ["model.safetensors"], ⟨some "CUDA OOM", [], []⟩,
          2, "CPU", "N/A", RegistryOutcome.ok 200, "run-123", true⟩
        ⟨[], [], [], []⟩).2.traceRows
        = [] ++ [⟨2, 0, none, "CPU", "N/A", "model.safetensors"⟩] :=
  C7_engine_error_traced
    ⟨some "a red fox in a snowy forest", some 20, some "model.ckpt"⟩
    ⟨["other.ckpt"], ⟨some "CUDA OOM", [], []⟩, 2, "CPU", "N/A"⟩ []
    ⟨some "an oil painting", some "imagebytes", some 1,
      some "model.safetensors"⟩
    ⟨true, true, 100, ["model.safetensors"], ⟨some "CUDA OOM", [], []⟩,
      2, "CPU", "N/A", RegistryOutcome.ok 200, "run-123", true⟩
    ⟨[], [], [], []⟩
    "CUDA OOM" "CUDA OOM" "other.ckpt" "model.safetensors"
    rfl rfl rfl rfl rfl rfl rfl (by decide) rfl rfl rfl

/-- C3 counterexample: after a successful dispatch with the registry
collaborator unreachable (the POST raises "connection refused"), the response
still reports success, but its `run_id` is the locally generated run id
`"run-123"` — not null as the claim states; only the warning log records the
failure. -/
theorem C3_run_id_not_null :
    handle_img2img
      (some ⟨some "an oil painting", some "imagebytes", some 1,
        some "model.safetensors"⟩)
      ⟨true, true, 100, ["model.safetensors"], ⟨none, [], []⟩, 2, "CPU", "N/A",
        RegistryOutcome.raises "connection refused", "run-123", true⟩
      ⟨[], [], [], []⟩
    = (⟨200, some "success", some "Workflow sent to ComfyUI successfully",
         none, some (some "run-123"), none, some []⟩,
       ⟨[], [⟨2, 0, none, "CPU", "N/A", "model.safetensors"⟩],
         ["Error registering run: connection refused"], []⟩) := by
  decide

/-- C3 amended: for a request whose dispatch succeeds, the run-registry
outcome (delivered, non-200, or raised exception) never alters the HTTP
response, which reports success and carries as `run_id` the id of the run
config built before the POST — a non-null value, not the null the original
claim stated for an unreachable registry. -/
theorem C3_registry_advisory (d : Img2ImgData) (env : Img2ImgEnv)
    (s : ServerState) (r : RegistryOutcome) (ck : String)
    (hdir : env.inputDirOk = true)
    (hvalid : requiredMissing d = none)
    (hdec : env.decodeOk = true)
    (hres : img2img_resolve (d.ckpt_name.getD "unknown")
      (get_allowed_checkpoints env.checkpointListing) = some ck)
    (hcomp : transform_to_img2img_workflow d.prompt = Except.ok ())
    (hok : env.engine.error = none) :
    (handle_img2img (some d) { env with registry := r } s).1
      = (handle_img2img (some d) env s).1
    ∧ (handle_img2img (some d) env s).1.status = some "success"
    ∧ (handle_img2img (some d) env s).1.run_id = some (some env.freshRunId) := by
  refine ⟨?_, ?_, ?_⟩ <;>
    simp [handle_img2img, hdir, hvalid, hdec, hres, hcomp, img2img_dispatch,
      hok, create_run_config_from_generation_data]

/-- C3 amended witness: concrete successful dispatch; replacing a delivered
registry call by a raised one leaves the response identical, and the `run_id`
is the non-null "run-123". -/
theorem C3_registry_advisory_witness :
    (handle_img2img
      (some ⟨some "an oil painting", some "imagebytes", some 1,
        some "model.safetensors"⟩)
      { (⟨true, true, 100, ["model.safetensors"], ⟨none, [], []⟩, 2, "CPU",
          "N/A", RegistryOutcome.ok 200, "run-123", true⟩ : Img2ImgEnv) with
        registry := RegistryOutcome.raises "connection refused" }
      ⟨[], [], [], []⟩).1
      = (handle_img2img
        (some ⟨some "an oil painting", some "imagebytes", some 1,
          some "model.safetensors"⟩)
        ⟨true, true, 100, ["model.safetensors"], ⟨none, [], []⟩, 2, "CPU",
          "N/A", RegistryOutcome.ok 200, "run-123", true⟩
        ⟨[], [], [], []⟩).1
    ∧ (handle_img2img
        (some ⟨some "an oil painting", some "imagebytes", some 1,
          some "model.safetensors"⟩)
        ⟨true, true, 100, ["model.safetensors"], ⟨none, [], []⟩, 2, "CPU",
          "N/A", RegistryOutcome.ok 200, "run-123", true⟩
        ⟨[], [], [], []⟩).1.status = some "success"
    ∧ (handle_img2img
        (some ⟨some "an oil painting", some "imagebytes", some 1,
          some "model.safetensors"⟩)
        ⟨true, true, 100, ["model.safetensors"], ⟨none, [], []⟩, 2, "CPU",
          "N/A", RegistryOutcome.ok 200, "run-123", true⟩
        ⟨[], [], [], []⟩).1.run_id = some (some "run-123") :=
  C3_registry_advisory
    ⟨some "an oil painting", some "imagebytes", some 1,
      some "model.safetensors"⟩
    ⟨true, true, 100, ["model.safetensors"], ⟨none, [], []⟩, 2, "CPU", "N/A",
      RegistryOutcome.ok 200, "run-123", true⟩
    ⟨[], [], [], []⟩ (RegistryOutcome.raises "connection refused")
    "model.safetensors" rfl rfl rfl (by decide) rfl rfl

/-- C4 counterexample: an ingested img2img request whose dispatch fails (the
engine reports "CUDA OOM") returns the 500 error with the temporary input
file `input_100.png` still present in the engine's input directory — the
cleanup block is only reached on the success path, contradicting the claim
that the file is removed on every exit path. -/
theorem C4_engine_error_leaves_file :
    handle_img2img
      (some ⟨some "an oil painting", some "imagebytes", some 1,
        some "model.safetensors"⟩)
      ⟨true, true, 100, ["model.safetensors"], ⟨some "CUDA OOM", [], []⟩, 2,
        "CPU", "N/A", RegistryOutcome.ok 200, "run-123", true⟩
      ⟨[], [], [], []⟩
    = (⟨500, some "error", some "CUDA OOM", none, none, none, none⟩,
       ⟨["input_100.png"], [⟨2, 0, none, "CPU", "N/A", "model.safetensors"⟩],
         [], []⟩) := by
  decide

/-- C4 amended: the temporary ingestion file is removed (best-effort) only on
the success exit path; when the engine reports an error the handler returns
HTTP 500 with the file still present in the input directory. -/
theorem C4_cleanup_only_on_success (d : Img2ImgData) (env : Img2ImgEnv)
    (s : ServerState) (ck : String)
    (hdir : env.inputDirOk = true)
    (hvalid : requiredMissing d = none)
    (hdec : env.decodeOk = true)
    (hres : img2img_resolve (d.ckpt_name.getD "unknown")
      (get_allowed_checkpoints env.checkpointListing) = some ck)
    (hcomp : transform_to_img2img_workflow d.prompt = Except.ok ()) :
    (∀ msg : String, env.engine.error = some msg →
      (handle_img2img (some d) env s).2.inputFiles
        = s.inputFiles ++ ["input_" ++ toString env.now ++ ".png"])
    ∧ (env.engine.error = none → env.removeOk = true →
        ("input_" ++ toString env.now ++ ".png") ∉ s.inputFiles →
        (handle_img2img (some d) env s).2.inputFiles = s.inputFiles) := by
  constructor
  · intro msg herr
    simp [handle_img2img, hdir, hvalid, hdec, hres, hcomp, img2img_dispatch,
      herr]
  · intro hok hrm hnotin
    have hreg : ∀ (r : RegistryOutcome) (rc : RunConfig) (st : ServerState),
        (registryStep r rc st).inputFiles = st.inputFiles := by
      intro r rc st
      cases r with
      | ok code =>
        unfold registryStep
        split <;> rfl
      | raises m => rfl
    simp [handle_img2img, hdir, hvalid, hdec, hres, hcomp,
      img2img_dispatch, hok, cleanupStep, hrm, hreg]
    intro a ha hEq
    exact hnotin (hEq ▸ ha)

/-- C4 amended witness: a concrete failed dispatch leaves the temporary file
`input_100.png` in the input directory. -/
theorem C4_cleanup_only_on_success_witness :
    (handle_img2img
      (some ⟨some "an oil painting", some "imagebytes", some 1,
        some "model.safetensors"⟩)
      ⟨true, true, 100, ["model.safetensors"], ⟨some "CUDA OOM", [], []⟩, 2,
        "CPU", "N/A", RegistryOutcome.ok 200, "run-123", true⟩
      ⟨[], [], [], []⟩).2.inputFiles
      = ([] : List String) ++ ["input_" ++ toString (100 : Nat) ++ ".png"] :=
  (C4_cleanup_only_on_success
    ⟨some "an oil painting", some "imagebytes", some 1,
      some "model.safetensors"⟩
    ⟨true, true, 100, ["model.safetensors"], ⟨some "CUDA OOM", [], []⟩, 2,
      "CPU", "N/A", RegistryOutcome.ok 200, "run-123", true⟩
    ⟨[], [], [], []⟩ "model.safetensors" rfl rfl rfl (by decide) rfl).1
    "CUDA OOM" rfl

end DreamLayer
